import Mathlib

/-! Verification of the SAGE manifest ingestion pipeline
(src/oterm/src/oterm/app/image_browser.py).

Python strings are modelled as lists of characters (a Python `str` is a
sequence of code points), Python tuples as products, Python dicts with fixed
keys as structures, and raised exceptions as the error branch of `Except`.
The filesystem seen by the extraction libraries is a function from paths to
optional file data; a missing file makes every reading library raise. -/

set_option maxRecDepth 20000

/-- The characters of a string literal: the model of a Python `str` value. -/
def chars (s : String) : List Char := s.data

/-- `chars` of the empty literal is the empty list. -/
theorem chars_nil : chars ("") = [] := rfl

/-- Python `str.lower`, character by character (the extensions involved are
ASCII, where `Char.toLower` and Python agree). -/
def pyLower (s : List Char) : List Char := s.map Char.toLower

instance {α β : Type} [DecidableEq α] [DecidableEq β] : DecidableEq (Except α β) := fun x y =>
  match x, y with
  | .ok a, .ok b =>
      if h : a = b then isTrue (h ▸ rfl) else isFalse (fun hc => h (Except.ok.inj hc))
  | .ok _, .error _ => isFalse (fun hc => Except.noConfusion hc)
  | .error _, .ok _ => isFalse (fun hc => Except.noConfusion hc)
  | .error a, .error b =>
      if h : a = b then isTrue (h ▸ rfl) else isFalse (fun hc => h (Except.error.inj hc))

/-- `MAX_CHARS = 20000  # keep under your context budget` -/
def MAX_CHARS : Nat := 20000

/-- `_truncate_for_model(text, limit=MAX_CHARS)`: return `(text, False)` when
the text fits, else `(text[:limit], True)`. The Python default argument is
passed explicitly at the call site. -/
def _truncate_for_model (text : List Char) (limit : Nat) : List Char × Bool :=
  if text.length ≤ limit then (text, false) else (text.take limit, true)

/-- The note string appended by `_build_manifest_prompt` when `truncated`. -/
def truncation_note : List Char := chars ("\n\n[Note: Input truncated for initial pass.]")

/-- The fixed instruction block opening every built prompt (the six literal
lines concatenated in the `return` of `_build_manifest_prompt`). -/
def manifest_header : List Char :=
  chars ("You are assisting an export‑compliance analyst. Read the manifest text and produce a concise, factual output.\nExtract these if present (use \x27N/A\x27 when missing):\n• Origin country  • Destination country  • Shipper / Consignee / End‑user\n• Items/models (e.g., GPU names)  • Quantities  • HS/ECCN codes  • Dates / PO / Invoice #\nThen provide a 2–3 sentence summary of what this document is about.\nDo not speculate or advise—just extract and summarize.\n\n")

/-- `_build_manifest_prompt(filename, body, truncated)`: the fixed header,
then `--- BEGIN MANIFEST: {filename} ---\n{body}\n--- END MANIFEST ---`,
then the truncation note when `truncated`. -/
def _build_manifest_prompt (filename body : List Char) (truncated : Bool) : List Char :=
  let note := if truncated then truncation_note else chars ("")
  manifest_header ++ chars ("--- BEGIN MANIFEST: ") ++ filename ++ chars (" ---\n") ++
    body ++ chars ("\n--- END MANIFEST ---") ++ note

/-- A filesystem path as the pipeline sees it: `path.name` (base name) and
`path.suffix` (extension with its dot, as stored, not yet lowercased). -/
structure PyPath where
  name : List Char
  suffix : List Char
deriving DecidableEq

/-- A value held in a workbook cell, as `openpyxl` yields it: `None`, a
string, an integer, or a boolean. -/
inductive Cell where
  | none
  | str (s : List Char)
  | int (n : Int)
  | bool (b : Bool)
deriving DecidableEq

/-- Python truthiness of a cell value (`bool(cell)`): `None`, the empty
string, `0` and `False` are falsy. -/
def Cell.truthy : Cell → Bool
  | Cell.none => false
  | Cell.str s => !s.isEmpty
  | Cell.int n => n != 0
  | Cell.bool b => b

/-- Python `str(cell)` on a cell value. -/
def Cell.pyText : Cell → List Char
  | Cell.none => chars ("None")
  | Cell.str s => s
  | Cell.int n => chars (toString n)
  | Cell.bool b => if b then chars ("True") else chars ("False")

/-- `str(cell or "")` from the xlsx branch of the source: a falsy cell
collapses to `""` before `str` is applied. -/
def cellRender (c : Cell) : List Char :=
  if c.truthy then c.pyText else chars ("")

/-- What the reading libraries find in one file: the permissive utf-8 decode
of its bytes (`read_text(..., errors="ignore")` never raises), and the
outcome of each structured parser — the parsed pages / paragraphs / sheet
rows, or the message of the exception the library raises. -/
structure FileData where
  bytesAsText : List Char
  asPdf : Except (List Char) (List (List Char))
  asDocx : Except (List Char) (List (List Char))
  asXlsx : Except (List Char) (List (List (List Cell)))
deriving DecidableEq

/-- The filesystem: which paths hold which file data; `none` is a missing
file, on which every reading library raises. -/
abbrev FS := PyPath → Option FileData

/-- Modelled message of the exception raised when opening a missing path. The
claims only rely on extraction failing with some message string. -/
def fileNotFoundMsg (path : PyPath) : List Char :=
  chars ("[Errno 2] No such file or directory: \x27") ++ path.name ++ chars ("\x27")

/-- The xlsx branch body: every sheet, every row in row order, cells joined
with a tab after `str(cell or "")`, all collected rows joined with a
newline (`"\n".join(text_chunks)`). -/
def xlsxText (sheets : List (List (List Cell))) : List Char :=
  List.intercalate (chars ("\n"))
    (List.flatten (sheets.map (fun sheet =>
      sheet.map (fun row => List.intercalate (chars ("\t")) (row.map cellRender)))))

/-- `load_manifest_text(path)`: dispatch on the lowercased extension; text
files read permissively, pdf pages and docx paragraphs joined with newlines,
workbooks rendered row by row, any other extension mapped to an inline
sentinel. The local variable `suffix = path.suffix.lower()` of the source is
inlined. The filesystem argument makes the ambient disk explicit. -/
def load_manifest_text (fs : FS) (path : PyPath) : Except (List Char) (List Char) :=
  if pyLower path.suffix = chars (".txt") ∨ pyLower path.suffix = chars (".csv") ∨
      pyLower path.suffix = chars (".json") then
    match fs path with
    | some fd => Except.ok fd.bytesAsText
    | none => Except.error (fileNotFoundMsg path)
  else if pyLower path.suffix = chars (".pdf") then
    match fs path with
    | some fd => Except.map (fun pages => List.intercalate (chars ("\n")) pages) fd.asPdf
    | none => Except.error (fileNotFoundMsg path)
  else if pyLower path.suffix = chars (".docx") then
    match fs path with
    | some fd => Except.map (fun paras => List.intercalate (chars ("\n")) paras) fd.asDocx
    | none => Except.error (fileNotFoundMsg path)
  else if pyLower path.suffix = chars (".xlsx") ∨ pyLower path.suffix = chars (".xlsm") then
    match fs path with
    | some fd => Except.map xlsxText fd.asXlsx
    | none => Except.error (fileNotFoundMsg path)
  else
    Except.ok (chars ("[Unsupported file type: ") ++ pyLower path.suffix ++ chars ("]"))

/-- The result record dismissed by `on_file_selected`:
`{"filename": ev.path.name, "hidden": content}`. -/
structure IngestResult where
  filename : List Char
  hidden : List Char
deriving DecidableEq

/-- The body of `ImageSelect.on_file_selected`: extract, truncate, build the
prompt; any exception raised on the way is caught and replaced by the inline
error payload. Truncation and prompt building are total, so only extraction
can reach the handler. -/
def pick_and_ingest (fs : FS) (path : PyPath) : IngestResult :=
  match load_manifest_text fs path with
  | Except.ok raw =>
      let bt := _truncate_for_model raw MAX_CHARS
      ⟨path.name, _build_manifest_prompt path.name bt.1 bt.2⟩
  | Except.error e =>
      ⟨path.name, chars ("[Error reading file \x27") ++ path.name ++ chars ("\x27: ") ++
        e ++ chars ("]")⟩

/-- What a `dismiss` call hands back to the awaiting caller: the picker
dismisses either with a plain string or with the result record. -/
inductive DismissValue where
  | str (s : List Char)
  | record (r : IngestResult)
deriving DecidableEq

/-- `ImageSelect.action_cancel`: `self.dismiss("")`. -/
def action_cancel : DismissValue := DismissValue.str (chars (""))

/-- `ImageSelect.on_file_selected` as seen by the caller: it always dismisses
with the record built by the pick-and-ingest pipeline. -/
def on_file_selected (fs : FS) (path : PyPath) : DismissValue :=
  DismissValue.record (pick_and_ingest fs path)

/-- `ImageSelect.on_root_changed`: the new tree root given the candidate
value; a candidate that does not exist or is not a directory is ignored and
the current root is kept, with no error raised (the function is total). -/
def on_root_changed (pathExists isDir : List Char → Bool) (root value : List Char) : List Char :=
  if !pathExists value || !isDir value then root else value

/-- `home / sub` on paths-as-strings. -/
def joinPath (a b : List Char) : List Char := a ++ chars ("/") ++ b

/-- `get_default_pick_dir()`: the first of `home/Downloads`, `home/Documents`
that exists, else `home`. The existence test is the explicit argument. -/
def get_default_pick_dir (home : List Char) (pathExists : List Char → Bool) : List Char :=
  match List.find? (fun sub => pathExists (joinPath home sub))
      [chars ("Downloads"), chars ("Documents")] with
  | some sub => joinPath home sub
  | none => home

/-- Modelled from the spec, for comparison only (claim C5): the rendering of
a workbook that joins the cell VALUES, with only missing or empty cells
rendered as the empty string — the literal reading of the claim. -/
def cellValueStr : Cell → List Char
  | Cell.none => chars ("")
  | Cell.str s => s
  | Cell.int n => chars (toString n)
  | Cell.bool b => if b then chars ("True") else chars ("False")

/-- Modelled from the spec, for comparison only (claim C5): tab-join the
cell values row by row, newline-join the rows, sheets in workbook order. -/
def xlsxSpecText (sheets : List (List (List Cell))) : List Char :=
  List.intercalate (chars ("\n"))
    (List.flatten (sheets.map (fun sheet =>
      sheet.map (fun row => List.intercalate (chars ("\t")) (row.map cellValueStr)))))

/-- A concrete `.txt` path for the success scenario. -/
def txtPath : PyPath := ⟨chars ("manifest.txt"), chars (".txt")⟩

/-- A concrete text file holding `"Origin: Japan\nDest: USA"`; the structured
parsers raise on it, as they would on plain text bytes. -/
def txtData : FileData :=
  ⟨chars ("Origin: Japan\nDest: USA"), Except.error (chars ("cannot open broken document")),
    Except.error (chars ("file is not a zip file")), Except.error (chars ("file is not a zip file"))⟩

/-- A filesystem where every path holds the concrete text file. -/
def txtFS : FS := fun _ => some txtData

/-- The empty filesystem: every path is missing. -/
def emptyFS : FS := fun _ => none

/-- A concrete workbook path (upper-case suffix, exercising the lowering). -/
def xlsxPath : PyPath := ⟨chars ("manifest.xlsx"), chars (".xlsx")⟩

/-- The one-sheet workbook `[["A","B"],["1","2"]]` of the claimed example. -/
def exampleSheets : List (List (List Cell)) :=
  [[[Cell.str (chars ("A")), Cell.str (chars ("B"))],
    [Cell.str (chars ("1")), Cell.str (chars ("2"))]]]

/-- File data for the example workbook. -/
def exampleXlsxData : FileData :=
  ⟨chars (""), Except.error (chars ("cannot open broken document")),
    Except.error (chars ("file is not a zip file")), Except.ok exampleSheets⟩

/-- A filesystem where every path holds the example workbook. -/
def exampleXlsxFS : FS := fun _ => some exampleXlsxData

/-- A one-sheet workbook whose single cell holds the integer `0`. -/
def zeroSheets : List (List (List Cell)) := [[[Cell.int 0]]]

/-- File data for the zero-cell workbook. -/
def zeroXlsxData : FileData :=
  ⟨chars (""), Except.error (chars ("cannot open broken document")),
    Except.error (chars ("file is not a zip file")), Except.ok zeroSheets⟩

/-- A filesystem where every path holds the zero-cell workbook. -/
def zeroXlsxFS : FS := fun _ => some zeroXlsxData

/-- A path with an unsupported (and not yet lowercased) extension. -/
def pngPath : PyPath := ⟨chars ("image.PNG"), chars (".PNG")⟩

/-- Text that fits the budget is returned unchanged and unflagged. -/
theorem truncate_of_le {text : List Char} {limit : Nat} (h : text.length ≤ limit) :
    _truncate_for_model text limit = (text, false) := by
  unfold _truncate_for_model
  rw [if_pos h]

/-- A nonempty suffix determines the last element. -/
theorem getLast?_of_suffix {l₁ l₂ : List Char} (h : l₁ <:+ l₂) (hne : l₁ ≠ []) :
    l₂.getLast? = l₁.getLast? := by
  obtain ⟨u, rfl⟩ := h
  exact List.getLast?_append_of_ne_nil u hne

/-- Extraction on a present `.txt` file is its permissive text decode. -/
theorem load_txt {fs : FS} {path : PyPath} {fd : FileData} (hfs : fs path = some fd)
    (hs : pyLower path.suffix = chars (".txt")) :
    load_manifest_text fs path = Except.ok fd.bytesAsText := by
  unfold load_manifest_text
  rw [hs, if_pos (Or.inl rfl), hfs]

/-- Extraction on a present, parseable workbook is the rendered sheet text. -/
theorem load_xlsx {fs : FS} {path : PyPath} {fd : FileData}
    {sheets : List (List (List Cell))} (hfs : fs path = some fd)
    (hx : fd.asXlsx = Except.ok sheets)
    (hs : pyLower path.suffix = chars (".xlsx") ∨ pyLower path.suffix = chars (".xlsm")) :
    load_manifest_text fs path = Except.ok (xlsxText sheets) := by
  unfold load_manifest_text
  rcases hs with hs | hs <;>
    (rw [hs, if_neg (by decide), if_neg (by decide), if_neg (by decide),
       if_pos (by decide), hfs]
     show Except.map xlsxText fd.asXlsx = Except.ok (xlsxText sheets)
     rw [hx]
     rfl)

/-- Claim C1: with the default limit MAX_CHARS = 20000, truncation returns
the text unchanged and unflagged when it fits; otherwise exactly the first
20000 characters, flagged; in every result the body is within budget and the
flag holds exactly when the original text exceeded it. -/
theorem truncate_budget_spec (text : List Char) :
    (text.length ≤ MAX_CHARS → _truncate_for_model text MAX_CHARS = (text, false)) ∧
    (MAX_CHARS < text.length →
      _truncate_for_model text MAX_CHARS = (text.take MAX_CHARS, true) ∧
      (_truncate_for_model text MAX_CHARS).1.length = MAX_CHARS) ∧
    (_truncate_for_model text MAX_CHARS).1.length ≤ MAX_CHARS ∧
    ((_truncate_for_model text MAX_CHARS).2 = true ↔ MAX_CHARS < text.length) := by
  by_cases h : text.length ≤ MAX_CHARS
  · rw [truncate_of_le h]
    exact ⟨fun _ => rfl, fun hlt => absurd hlt (not_lt.mpr h), h, by simp [Nat.not_lt.mpr h]⟩
  · have hlt := Nat.lt_of_not_le h
    have he : _truncate_for_model text MAX_CHARS = (text.take MAX_CHARS, true) := by
      unfold _truncate_for_model
      rw [if_neg h]
    have hlen : (text.take MAX_CHARS).length = MAX_CHARS := by
      rw [List.length_take]
      exact Nat.min_eq_left hlt.le
    rw [he]
    exact ⟨fun hle => absurd hle h, fun _ => ⟨rfl, hlen⟩, le_of_eq hlen, by simp [hlt]⟩

/-- Witness for C1 at a 20001-character text. -/
theorem truncate_budget_spec_witness :
    _truncate_for_model (List.replicate 20001 'a') MAX_CHARS =
      ((List.replicate 20001 'a').take MAX_CHARS, true) ∧
    (_truncate_for_model (List.replicate 20001 'a') MAX_CHARS).1.length = MAX_CHARS :=
  (truncate_budget_spec (List.replicate 20001 'a')).2.1
    (by rw [List.length_replicate]; decide)

/-- Claim C3: the prompt builder is deterministic — two calls on identical
(filename, body, truncated) inputs produce the identical string; the Lean
model is a pure function of exactly those three arguments. -/
theorem build_prompt_deterministic (f₁ f₂ b₁ b₂ : List Char) (t₁ t₂ : Bool)
    (hf : f₁ = f₂) (hb : b₁ = b₂) (ht : t₁ = t₂) :
    _build_manifest_prompt f₁ b₁ t₁ = _build_manifest_prompt f₂ b₂ t₂ := by
  rw [hf, hb, ht]

/-- Witness for C3 at a concrete input. -/
theorem build_prompt_deterministic_witness :
    _build_manifest_prompt (chars ("m.txt")) (chars ("body")) true =
      _build_manifest_prompt (chars ("m.txt")) (chars ("body")) true :=
  build_prompt_deterministic _ _ _ _ _ _ rfl rfl rfl

/-- Claim C4: on any path whose lowercased extension is outside the
recognized set, extraction returns the unsupported-type sentinel string and
cannot raise (the result is the ok branch for every filesystem). -/
theorem unsupported_extension_sentinel (fs : FS) (path : PyPath)
    (h : pyLower path.suffix ∉ [chars (".txt"), chars (".csv"), chars (".json"),
      chars (".pdf"), chars (".docx"), chars (".xlsx"), chars (".xlsm")]) :
    load_manifest_text fs path =
      Except.ok (chars ("[Unsupported file type: ") ++ pyLower path.suffix ++ chars ("]")) := by
  simp only [List.mem_cons, List.not_mem_nil, or_false, not_or] at h
  obtain ⟨h1, h2, h3, h4, h5, h6, h7⟩ := h
  unfold load_manifest_text
  rw [if_neg (by simp [h1, h2, h3]), if_neg h4, if_neg h5, if_neg (by simp [h6, h7])]

/-- Witness for C4 at a `.PNG` path over the empty filesystem. -/
theorem unsupported_extension_sentinel_witness :
    load_manifest_text emptyFS pngPath =
      Except.ok (chars ("[Unsupported file type: ") ++ pyLower pngPath.suffix ++ chars ("]")) :=
  unsupported_extension_sentinel emptyFS pngPath (by decide)

/-- Claim C8: the default browse root is home/Downloads when it exists, else
home/Documents when it exists, else home — the first existing directory in
that fixed priority order. -/
theorem default_pick_dir_priority (home : List Char) (pathExists : List Char → Bool) :
    (pathExists (joinPath home (chars ("Downloads"))) = true →
      get_default_pick_dir home pathExists = joinPath home (chars ("Downloads"))) ∧
    (pathExists (joinPath home (chars ("Downloads"))) = false →
      pathExists (joinPath home (chars ("Documents"))) = true →
      get_default_pick_dir home pathExists = joinPath home (chars ("Documents"))) ∧
    (pathExists (joinPath home (chars ("Downloads"))) = false →
      pathExists (joinPath home (chars ("Documents"))) = false →
      get_default_pick_dir home pathExists = home) := by
  unfold get_default_pick_dir
  refine ⟨fun h1 => ?_, fun h1 h2 => ?_, fun h1 h2 => ?_⟩
  · simp [List.find?, h1]
  · simp [List.find?, h1, h2]
  · simp [List.find?, h1, h2]

/-- Witness for C8 where every directory exists. -/
theorem default_pick_dir_priority_witness :
    get_default_pick_dir (chars ("/home/user")) (fun _ => true) =
      joinPath (chars ("/home/user")) (chars ("Downloads")) :=
  (default_pick_dir_priority (chars ("/home/user")) (fun _ => true)).1 rfl

/-- Claim C9: a root-changed candidate is accepted only when it exists and is
a directory; otherwise the event is ignored and the root is unchanged, with
no error (the handler is a total function). -/
theorem root_changed_validation (pathExists isDir : List Char → Bool) (root value : List Char) :
    (pathExists value = true → isDir value = true →
      on_root_changed pathExists isDir root value = value) ∧
    ((pathExists value = false ∨ isDir value = false) →
      on_root_changed pathExists isDir root value = root) := by
  unfold on_root_changed
  constructor
  · intro h1 h2
    rw [h1, h2]
    rfl
  · rintro (h | h) <;> rw [h] <;> simp

/-- Witness for C9 where the candidate is a real directory. -/
theorem root_changed_validation_witness :
    on_root_changed (fun _ => true) (fun _ => true) (chars ("/a")) (chars ("/b")) = chars ("/b") :=
  (root_changed_validation (fun _ => true) (fun _ => true) (chars ("/a")) (chars ("/b"))).1 rfl rfl

/-- Claim C10: cancelling dismisses with the plain empty string, while every
file selection dismisses with the {filename, hidden} record; the two
dismissal values are never equal. -/
theorem cancel_dismisses_string (fs : FS) (path : PyPath) :
    action_cancel = DismissValue.str (chars ("")) ∧
    on_file_selected fs path = DismissValue.record (pick_and_ingest fs path) ∧
    action_cancel ≠ on_file_selected fs path :=
  ⟨rfl, rfl, fun hc => DismissValue.noConfusion hc⟩

/-- With `truncated = False` the appended note is empty. -/
theorem build_eq_core (f b : List Char) :
    _build_manifest_prompt f b false =
      manifest_header ++ chars ("--- BEGIN MANIFEST: ") ++ f ++ chars (" ---\n") ++ b ++
        chars ("\n--- END MANIFEST ---") := by
  unfold _build_manifest_prompt
  simp [chars_nil]

/-- The truncated prompt is the untruncated prompt plus the note. -/
theorem build_true_eq (f b : List Char) :
    _build_manifest_prompt f b true = _build_manifest_prompt f b false ++ truncation_note := by
  unfold _build_manifest_prompt
  simp [chars_nil, List.append_assoc]

/-- Claim C2 (theorem): whenever extraction fails — truncation and prompt
building are total, so extraction is the only fallible stage — the picker
still returns a record whose hidden field is the bracketed error string,
which starts with the fixed marker and contains the base name; no exception
escapes, since the pipeline is a total function. -/
theorem error_containment (fs : FS) (path : PyPath) (e : List Char)
    (h : load_manifest_text fs path = Except.error e) :
    pick_and_ingest fs path =
      ⟨path.name, chars ("[Error reading file \x27") ++ path.name ++ chars ("\x27: ") ++
        e ++ chars ("]")⟩ ∧
    chars ("[Error reading file") <+: (pick_and_ingest fs path).hidden ∧
    path.name <:+: (pick_and_ingest fs path).hidden := by
  have hp : pick_and_ingest fs path =
      ⟨path.name, chars ("[Error reading file \x27") ++ path.name ++ chars ("\x27: ") ++
        e ++ chars ("]")⟩ := by
    unfold pick_and_ingest
    rw [h]
  refine ⟨hp, ?_, ?_⟩
  · rw [hp]
    have h1 : chars ("[Error reading file") <+: chars ("[Error reading file \x27") := by decide
    exact (((h1.trans (List.prefix_append _ _)).trans (List.prefix_append _ _)).trans
      (List.prefix_append _ _)).trans (List.prefix_append _ _)
  · rw [hp]
    refine ⟨chars ("[Error reading file \x27"), chars ("\x27: ") ++ e ++ chars ("]"), ?_⟩
    simp [List.append_assoc]

/-- Witness for C2: a `.txt` path on the empty filesystem. -/
theorem error_containment_witness :
    load_manifest_text emptyFS txtPath = Except.error (fileNotFoundMsg txtPath) ∧
    (pick_and_ingest emptyFS txtPath).hidden =
      chars ("[Error reading file \x27") ++ txtPath.name ++ chars ("\x27: ") ++
        fileNotFoundMsg txtPath ++ chars ("]") := by
  have h : load_manifest_text emptyFS txtPath = Except.error (fileNotFoundMsg txtPath) := by
    decide
  exact ⟨h, congrArg IngestResult.hidden
    (error_containment emptyFS txtPath (fileNotFoundMsg txtPath) h).1⟩

/-- Claim C6 (counterexample): a body that itself contains the truncation
note makes the untruncated output contain the notice substring, refuting the
claimed universal absence. -/
theorem truncation_note_leaks_into_untruncated :
    truncation_note <:+: _build_manifest_prompt (chars ("f")) truncation_note false := by
  decide

/-- Claim C6 (amended): the truncated output is exactly the untruncated
output followed by the truncation note, hence contains the note; the
untruncated output never ends with the note, though it can contain it when
the filename or body already does. -/
theorem truncation_note_appended (f b : List Char) :
    _build_manifest_prompt f b true = _build_manifest_prompt f b false ++ truncation_note ∧
    truncation_note <:+: _build_manifest_prompt f b true ∧
    ¬ truncation_note <:+ _build_manifest_prompt f b false := by
  refine ⟨build_true_eq f b, ?_, ?_⟩
  · rw [build_true_eq f b]
    exact (List.suffix_append _ _).isInfix
  · intro hcon
    have h1 := getLast?_of_suffix hcon (by decide)
    rw [build_eq_core] at h1
    have hM3 : chars ("\n--- END MANIFEST ---") ≠ [] := by decide
    rw [List.getLast?_append_of_ne_nil _ hM3] at h1
    exact absurd h1 (by decide)

/-- Claim C7: picking an existing `.txt` file whose content fits the budget
returns a success record whose filename is the base name and whose hidden
payload is the untruncated prompt: it starts with the fixed
extraction-checklist header and contains the file text wrapped between the
begin/end sentinel markers that carry the filename. -/
theorem txt_ingest_success (fs : FS) (path : PyPath) (fd : FileData)
    (hfs : fs path = some fd) (hs : pyLower path.suffix = chars (".txt"))
    (hlen : fd.bytesAsText.length ≤ MAX_CHARS) :
    (pick_and_ingest fs path).filename = path.name ∧
    (pick_and_ingest fs path).hidden = _build_manifest_prompt path.name fd.bytesAsText false ∧
    manifest_header <+: (pick_and_ingest fs path).hidden ∧
    (chars ("--- BEGIN MANIFEST: ") ++ path.name ++ chars (" ---\n") ++ fd.bytesAsText ++
      chars ("\n--- END MANIFEST ---")) <:+: (pick_and_ingest fs path).hidden ∧
    fd.bytesAsText <:+: (pick_and_ingest fs path).hidden := by
  have hp : pick_and_ingest fs path =
      ⟨path.name, _build_manifest_prompt path.name fd.bytesAsText false⟩ := by
    unfold pick_and_ingest
    rw [load_txt hfs hs]
    show (⟨path.name, _build_manifest_prompt path.name
        (_truncate_for_model fd.bytesAsText MAX_CHARS).1
        (_truncate_for_model fd.bytesAsText MAX_CHARS).2⟩ : IngestResult) = _
    rw [truncate_of_le hlen]
  rw [hp]
  refine ⟨rfl, rfl, ?_, ?_, ?_⟩
  · rw [build_eq_core]
    refine ⟨chars ("--- BEGIN MANIFEST: ") ++ path.name ++ chars (" ---\n") ++
      fd.bytesAsText ++ chars ("\n--- END MANIFEST ---"), ?_⟩
    simp [List.append_assoc]
  · rw [build_eq_core]
    refine ⟨manifest_header, [], ?_⟩
    simp [List.append_assoc]
  · rw [build_eq_core]
    refine ⟨manifest_header ++ chars ("--- BEGIN MANIFEST: ") ++ path.name ++
      chars (" ---\n"), chars ("\n--- END MANIFEST ---"), ?_⟩
    simp [List.append_assoc]

/-- Witness for C7 on a text file holding `"Origin: Japan\nDest: USA"`. -/
theorem txt_ingest_success_witness :
    (pick_and_ingest txtFS txtPath).filename = txtPath.name ∧
    txtData.bytesAsText <:+: (pick_and_ingest txtFS txtPath).hidden ∧
    manifest_header <+: (pick_and_ingest txtFS txtPath).hidden :=
  ⟨(txt_ingest_success txtFS txtPath txtData rfl (by decide) (by decide)).1,
   (txt_ingest_success txtFS txtPath txtData rfl (by decide) (by decide)).2.2.2.2,
   (txt_ingest_success txtFS txtPath txtData rfl (by decide) (by decide)).2.2.1⟩

/-- Claim C5 (counterexample): a workbook whose single cell holds the
integer 0 renders as the empty string, not as the cell value "0" that the
claimed join of cell values would produce. -/
theorem xlsx_zero_cell_counterexample :
    load_manifest_text zeroXlsxFS xlsxPath ≠ Except.ok (xlsxSpecText zeroSheets) ∧
    load_manifest_text zeroXlsxFS xlsxPath = Except.ok (chars ("")) ∧
    xlsxSpecText zeroSheets = chars ("0") := by
  refine ⟨?_, ?_, ?_⟩ <;> decide

/-- Claim C5 (amended): workbook extraction tab-joins the rendered cells of
each row, newline-joins the rows in row order with sheets in workbook order,
where a falsy cell (missing, empty string, integer 0, False) renders as the
empty string and any other cell as its value string; the claimed
`[["A","B"],["1","2"]]` example renders as `"A\tB\n1\t2"`. -/
theorem xlsx_render_spec (fs : FS) (path : PyPath) (fd : FileData)
    (sheets : List (List (List Cell))) (hfs : fs path = some fd)
    (hx : fd.asXlsx = Except.ok sheets)
    (hs : pyLower path.suffix = chars (".xlsx") ∨ pyLower path.suffix = chars (".xlsm")) :
    load_manifest_text fs path = Except.ok (xlsxText sheets) ∧
    xlsxText sheets = List.intercalate (chars ("\n"))
      (List.flatten (sheets.map (fun sheet =>
        sheet.map (fun row => List.intercalate (chars ("\t")) (row.map cellRender))))) ∧
    (∀ s : List Char, s ≠ [] → cellRender (Cell.str s) = s) ∧
    (∀ n : Int, n ≠ 0 → cellRender (Cell.int n) = chars (toString n)) ∧
    cellRender Cell.none = chars ("") ∧
    cellRender (Cell.str (chars (""))) = chars ("") ∧
    cellRender (Cell.int 0) = chars ("") ∧
    cellRender (Cell.bool false) = chars ("") ∧
    load_manifest_text exampleXlsxFS xlsxPath = Except.ok (chars ("A\tB\n1\t2")) := by
  refine ⟨load_xlsx hfs hx hs, rfl, ?_, ?_, rfl, by decide, by decide, rfl, by decide⟩
  · intro s hne
    simp [cellRender, Cell.truthy, Cell.pyText, hne]
  · intro n hne
    simp [cellRender, Cell.truthy, Cell.pyText, hne]

/-- Witness for C5 on the example workbook. -/
theorem xlsx_render_spec_witness :
    load_manifest_text exampleXlsxFS xlsxPath = Except.ok (xlsxText exampleSheets) :=
  (xlsx_render_spec exampleXlsxFS xlsxPath exampleXlsxData exampleSheets rfl rfl
    (Or.inl (by decide))).1
